import Mathlib

/-
Shallow embedding of rapidloop/s3report (src/s3report.go).

The program lists CloudWatch metrics in the AWS/S3 namespace, and for each
descriptor named "BucketSizeBytes" or "NumberOfObjects" queries a one-minute
statistics window at midnight UTC of the target day, formats one Graphite
line per returned datapoint, and — if at least one line was buffered — opens
a single TCP connection, writes the whole buffer, and closes it.

Modelling choices:
  * Go `time.Time` values are modelled at whole-second resolution as Unix
    seconds (`Int`).  Go's calendar (proleptic Gregorian, no leap seconds)
    makes `y, m, d := t.Date(); time.Date(y, m, d, 0, 0, 0, 0, time.UTC)`
    equal to floor-division of the Unix seconds by 86400, times 86400.
    The zero `time.Time{}` (January 1, year 1 UTC) has Unix seconds
    -62135596800, and `IsZero` holds exactly for it.
  * float64 datapoint averages are modelled as exact rationals; Go's
    `int64(f)` conversion truncates toward zero, modelled by `Int.tdiv`
    on the rational's numerator and denominator.
  * The two AWS calls are oracles: `ListMetrics` is an
    `Except String (List Metric)` value and `GetMetricStatistics` is a
    function from the request structure to `Except String (List Datapoint)`;
    an `error` answer models a transport/API error, on which the program
    calls `log.Fatal` (modelled by propagating the error to a `fatal`
    outcome — nothing is sent).
  * `strings.ToLower` is modelled by a character-wise `goToLower` (adequate
    for the ASCII storage-type names the program deals with).
  * The per-metric loop body additionally records the statistics queries it
    issues and the diagnostic log messages it prints, so that "no query is
    issued" and "a diagnostic is logged" are statable.
-/

/-- Go `time.Time` restricted to whole seconds: Unix seconds since
1970-01-01T00:00:00Z UTC. -/
structure GoTime where
  unixSec : Int
  deriving DecidableEq, Repr

/-- Unix seconds of Go's zero time `time.Time{}` (January 1, year 1 UTC). -/
def goZeroTimeSec : Int := -62135596800

/-- Go's zero value `time.Time{}`, returned by `actualGet` when the
statistics response holds no datapoints (src/s3report.go:186). -/
def GoTime.zero : GoTime := { unixSec := goZeroTimeSec }

/-- Go `t.IsZero()`: true exactly for the zero time (at whole-second
resolution). -/
def GoTime.isZero (t : GoTime) : Bool := t.unixSec == goZeroTimeSec

/-- Go `t.Unix()`: seconds since the Unix epoch. -/
def GoTime.unix (t : GoTime) : Int := t.unixSec

/-- Go `t.Add(-24 * time.Hour)` on a UTC time (src/s3report.go:135,159). -/
def GoTime.subDay (t : GoTime) : GoTime := { unixSec := t.unixSec - 86400 }

/-- Day number (days since the Unix epoch, floor convention) of the UTC day
containing `t`. -/
def GoTime.utcDay (t : GoTime) : Int := t.unixSec.fdiv 86400

/-- Go `y, m, d := t.Date(); time.Date(y, m, d, 0, 0, 0, 0, time.UTC)`
(src/s3report.go:137-138,161-162): truncation of a UTC time to the midnight
of its UTC day, i.e. floor-division of the Unix seconds by 86400. -/
def truncToMidnightUTC (t : GoTime) : GoTime := { unixSec := 86400 * t.unixSec.fdiv 86400 }

/-- One CloudWatch dimension: a name/value pair. -/
structure Dimension where
  name : String
  value : String
  deriving DecidableEq, Repr

/-- One entry of the ListMetrics response: metric name plus dimensions. -/
structure Metric where
  metricName : String
  dimensions : List Dimension
  deriving DecidableEq, Repr

/-- One CloudWatch datapoint: its timestamp and its float64 `Average`,
modelled as an exact rational. -/
structure Datapoint where
  timestamp : GoTime
  average : Rat
  deriving DecidableEq, Repr

/-- The `cloudwatch.GetMetricStatisticsInput` request the program builds
(src/s3report.go:140-151,164-175). -/
structure GetMetricStatisticsInput where
  startTime : GoTime
  endTime : GoTime
  period : Int
  metricName : String
  nameSpace : String
  statistics : List String
  dimensions : List Dimension
  unit : String
  deriving DecidableEq, Repr

/-- The external GetMetricStatistics service, as an oracle from the request
to either a transport/API error or the `resp.Datapoints` list. -/
abbrev StatsAPI := GetMetricStatisticsInput → Except String (List Datapoint)

/-- Go conversion `int64(f)` of a float64, on the rational model: truncation
toward zero (src/s3report.go:189). -/
def truncToInt64 (q : Rat) : Int := q.num.tdiv (q.den : Int)

/-- Function `actualGet` (src/s3report.go:180-190): issue the statistics
query; a service error is fatal (propagated); an empty datapoint list
yields the zero-time sentinel `(time.Time{}, 0)`; otherwise the first
datapoint's timestamp and its average truncated to int64. -/
def actualGet (api : StatsAPI) (params : GetMetricStatisticsInput) :
    Except String (GoTime × Int) :=
  match api params with
  | .error e => .error e
  | .ok dps =>
    match dps with
    | [] => .ok (GoTime.zero, 0)
    | dp :: _ => .ok (dp.timestamp, truncToInt64 dp.average)

/-- Lines 133-136 (and 157-160) of src/s3report.go: the time whose UTC date
is used — `time.Now().In(time.UTC)`, minus 24 hours when the `-1` flag is
set. -/
def targetTime (now : GoTime) (prev : Bool) : GoTime :=
  if prev then now.subDay else now

/-- The statistics request built by `getBucketSize` (src/s3report.go:132-151):
window from midnight UTC to 00:01:00 UTC of the target day, period 60,
statistic "Average", unit "Bytes". `now` is the value of
`time.Now().In(time.UTC)`. -/
def sizeQuery (now : GoTime) (dims : List Dimension) (prev : Bool) :
    GetMetricStatisticsInput :=
  let st := truncToMidnightUTC (targetTime now prev)
  { startTime := st, endTime := { unixSec := st.unixSec + 60 }, period := 60,
    metricName := "BucketSizeBytes", nameSpace := "AWS/S3",
    statistics := ["Average"], dimensions := dims, unit := "Bytes" }

/-- The statistics request built by `getBucketObjectCount`
(src/s3report.go:156-175): same window and statistic, metric
"NumberOfObjects", unit "Count". -/
def countQuery (now : GoTime) (dims : List Dimension) (prev : Bool) :
    GetMetricStatisticsInput :=
  let st := truncToMidnightUTC (targetTime now prev)
  { startTime := st, endTime := { unixSec := st.unixSec + 60 }, period := 60,
    metricName := "NumberOfObjects", nameSpace := "AWS/S3",
    statistics := ["Average"], dimensions := dims, unit := "Count" }

/-- Function `getBucketSize` (src/s3report.go:132-154): build the size
request and run `actualGet` on it. -/
def getBucketSize (api : StatsAPI) (now : GoTime) (dims : List Dimension)
    (prev : Bool) : Except String (GoTime × Int) :=
  actualGet api (sizeQuery now dims prev)

/-- Function `getBucketObjectCount` (src/s3report.go:156-178): build the
object-count request and run `actualGet` on it. -/
def getBucketObjectCount (api : StatsAPI) (now : GoTime) (dims : List Dimension)
    (prev : Bool) : Except String (GoTime × Int) :=
  actualGet api (countQuery now dims prev)

/-- Go `strings.ToLower` (src/s3report.go:93), modelled character-wise
(adequate for the ASCII metric dimension values this program handles). -/
def goToLower (s : String) : String := { data := s.data.map Char.toLower }

/-- The dimension scan in main (src/s3report.go:88-95): the last dimension
named "BucketName" sets the bucket name, the last named "StorageType" sets
the lower-cased storage type; Go string zero values leave "" when a
dimension is absent. -/
def extractNameSType (dims : List Dimension) : String × String :=
  dims.foldl
    (fun p d =>
      if d.name == "BucketName" then (d.value, p.2)
      else if d.name == "StorageType" then (p.1, goToLower d.value)
      else p)
    ("", "")

/-- The size line `fmt.Fprintf(buf, "%s%s.%s.size %d %d\n", ...)`
(src/s3report.go:102). -/
def sizeLine (pfx name stype : String) (v : Int) (ts : Int) : String :=
  pfx ++ name ++ "." ++ stype ++ ".size " ++ toString v ++ " " ++ toString ts ++ "\n"

/-- The object-count line `fmt.Fprintf(buf, "%s%s.objcount %d %d\n", ...)`
(src/s3report.go:111). -/
def countLine (pfx name : String) (v : Int) (ts : Int) : String :=
  pfx ++ name ++ ".objcount " ++ toString v ++ " " ++ toString ts ++ "\n"

/-- The diagnostic `log.Printf("bucket size not available for bucket %s", name)`
(src/s3report.go:100). -/
def sizeMissingLog (name : String) : String :=
  "bucket size not available for bucket " ++ name

/-- The diagnostic `log.Printf("object count not available for bucket %s", name)`
(src/s3report.go:109). -/
def countMissingLog (name : String) : String :=
  "object count not available for bucket " ++ name

/-- What one iteration of the metrics loop produces: the statistics queries
it issued, the diagnostics it logged, and the lines it appended to `buf`. -/
structure MetricOut where
  queries : List GetMetricStatisticsInput
  logs : List String
  lines : List String
  deriving DecidableEq, Repr

/-- Body of the per-metric loop in main (src/s3report.go:86-114): extract
bucket name and storage type, then run the "BucketSizeBytes" branch and the
"NumberOfObjects" branch in order.  A statistics-API error aborts
(`log.Fatal` inside `actualGet`); a zero-time result logs a diagnostic and
appends no line; otherwise one line is appended. -/
def processMetric (api : StatsAPI) (pfx : String) (prev : Bool) (now : GoTime)
    (m : Metric) : Except String MetricOut :=
  let ns := extractNameSType m.dimensions
  let sizePart : Except String MetricOut :=
    if m.metricName == "BucketSizeBytes" then
      match getBucketSize api now m.dimensions prev with
      | .error e => .error e
      | .ok tv =>
        if tv.1.isZero then
          .ok { queries := [sizeQuery now m.dimensions prev],
                logs := [sizeMissingLog ns.1], lines := [] }
        else
          .ok { queries := [sizeQuery now m.dimensions prev], logs := [],
                lines := [sizeLine pfx ns.1 ns.2 tv.2 tv.1.unix] }
    else .ok { queries := [], logs := [], lines := [] }
  match sizePart with
  | .error e => .error e
  | .ok p1 =>
    let countPart : Except String MetricOut :=
      if m.metricName == "NumberOfObjects" then
        match getBucketObjectCount api now m.dimensions prev with
        | .error e => .error e
        | .ok tv =>
          if tv.1.isZero then
            .ok { queries := [countQuery now m.dimensions prev],
                  logs := [countMissingLog ns.1], lines := [] }
          else
            .ok { queries := [countQuery now m.dimensions prev], logs := [],
                  lines := [countLine pfx ns.1 tv.2 tv.1.unix] }
      else .ok { queries := [], logs := [], lines := [] }
    match countPart with
    | .error e => .error e
    | .ok p2 =>
      .ok { queries := p1.queries ++ p2.queries, logs := p1.logs ++ p2.logs,
            lines := p1.lines ++ p2.lines }

/-- The whole metrics loop in main (src/s3report.go:85-114): iterate over
`resp.Metrics` in order, accumulating issued queries, logs and buffered
lines; a fatal error stops the run immediately. -/
def collectLines (api : StatsAPI) (pfx : String) (prev : Bool) (now : GoTime) :
    List Metric → Except String MetricOut
  | [] => .ok { queries := [], logs := [], lines := [] }
  | m :: ms =>
    match processMetric api pfx prev now m with
    | .error e => .error e
    | .ok p =>
      match collectLines api pfx prev now ms with
      | .error e => .error e
      | .ok r =>
        .ok { queries := p.queries ++ r.queries, logs := p.logs ++ r.logs,
              lines := p.lines ++ r.lines }

/-- Contents of the `bytes.Buffer` after the loop: each line appended in
order by `fmt.Fprintf(buf, ...)`. -/
def bufOf (lines : List String) : String :=
  lines.foldl (fun b l => b ++ l) ""

/-- Observable outcome of a run of main past env/flag checks:
`fatal` models `log.Fatal` (non-zero exit, nothing sent); `noMetrics` is the
empty-buffer branch (src/s3report.go:126-129: diagnostics only, exit 0, no
TCP dial); `sent payload` is the non-empty branch (src/s3report.go:116-125):
exactly one TCP connection is dialed, `payload` (the whole buffer) is
written to it by the single `buf.WriteTo(conn)` call, and the connection is
closed. -/
inductive RunOutcome where
  | fatal (msg : String)
  | noMetrics
  | sent (payload : String)
  deriving DecidableEq, Repr

/-- Function main (src/s3report.go:49-130) past env/flag parsing:
`listResp` is the `ListMetrics` answer (src/s3report.go:79-82: an error is
fatal); then the metrics loop; then send iff `buf.Len() > 0`. -/
def runMain (listResp : Except String (List Metric)) (api : StatsAPI)
    (pfx : String) (prev : Bool) (now : GoTime) : RunOutcome :=
  match listResp with
  | .error e => .fatal e
  | .ok ms =>
    match collectLines api pfx prev now ms with
    | .error e => .fatal e
    | .ok r =>
      if (bufOf r.lines).length > 0 then .sent (bufOf r.lines)
      else .noMetrics

/-- Measurement predicate for statements about the loop: a statistics query
counts as a successfully collected datapoint exactly when `actualGet`
answers it with a non-zero timestamp (an error or the zero-time sentinel do
not count). -/
def datapointCollected (api : StatsAPI) (q : GetMetricStatisticsInput) : Bool :=
  match actualGet api q with
  | .ok tv => !tv.1.isZero
  | .error _ => false

/-- Floor division by 86400 shifts by one when 86400 seconds are
subtracted: yesterday's times land on the previous day number. -/
theorem fdiv_sub_day (x : Int) : (x - 86400).fdiv 86400 = x.fdiv 86400 - 1 := by
  rw [Int.fdiv_eq_ediv _ (by norm_num), Int.fdiv_eq_ediv _ (by norm_num)]
  omega

/-- Helper: a "BucketSizeBytes" metric whose query is answered with a
datapoint of non-zero timestamp produces exactly the one size line. -/
theorem processMetric_size_ok (api : StatsAPI) (pfx : String) (prev : Bool)
    (now : GoTime) (m : Metric) (dp : Datapoint) (rest : List Datapoint)
    (hname : m.metricName = "BucketSizeBytes")
    (hapi : api (sizeQuery now m.dimensions prev) = .ok (dp :: rest))
    (hts : dp.timestamp.isZero = false) :
    processMetric api pfx prev now m =
      .ok { queries := [sizeQuery now m.dimensions prev], logs := [],
            lines := [sizeLine pfx (extractNameSType m.dimensions).1
              (extractNameSType m.dimensions).2 (truncToInt64 dp.average)
              dp.timestamp.unix] } := by
  simp [processMetric, getBucketSize, getBucketObjectCount, actualGet, hname,
    hapi, hts]

/-- Helper: a "BucketSizeBytes" metric whose query is answered with zero
datapoints logs the missing-size diagnostic and produces no line. -/
theorem processMetric_size_missing (api : StatsAPI) (pfx : String) (prev : Bool)
    (now : GoTime) (m : Metric)
    (hname : m.metricName = "BucketSizeBytes")
    (hapi : api (sizeQuery now m.dimensions prev) = .ok []) :
    processMetric api pfx prev now m =
      .ok { queries := [sizeQuery now m.dimensions prev],
            logs := [sizeMissingLog (extractNameSType m.dimensions).1],
            lines := [] } := by
  simp [processMetric, getBucketSize, getBucketObjectCount, actualGet, hname,
    hapi, GoTime.zero, GoTime.isZero, goZeroTimeSec]

/-- Helper: a "BucketSizeBytes" metric whose query errors aborts the run. -/
theorem processMetric_size_err (api : StatsAPI) (pfx : String) (prev : Bool)
    (now : GoTime) (m : Metric) (e : String)
    (hname : m.metricName = "BucketSizeBytes")
    (hapi : api (sizeQuery now m.dimensions prev) = .error e) :
    processMetric api pfx prev now m = .error e := by
  simp [processMetric, getBucketSize, actualGet, hname, hapi]

/-- Helper: a "NumberOfObjects" metric whose query is answered with a
datapoint of non-zero timestamp produces exactly the one count line. -/
theorem processMetric_count_ok (api : StatsAPI) (pfx : String) (prev : Bool)
    (now : GoTime) (m : Metric) (dp : Datapoint) (rest : List Datapoint)
    (hname : m.metricName = "NumberOfObjects")
    (hapi : api (countQuery now m.dimensions prev) = .ok (dp :: rest))
    (hts : dp.timestamp.isZero = false) :
    processMetric api pfx prev now m =
      .ok { queries := [countQuery now m.dimensions prev], logs := [],
            lines := [countLine pfx (extractNameSType m.dimensions).1
              (truncToInt64 dp.average) dp.timestamp.unix] } := by
  simp [processMetric, getBucketSize, getBucketObjectCount, actualGet, hname,
    hapi, hts]

/-- Helper: a "NumberOfObjects" metric whose query is answered with zero
datapoints logs the missing-count diagnostic and produces no line. -/
theorem processMetric_count_missing (api : StatsAPI) (pfx : String) (prev : Bool)
    (now : GoTime) (m : Metric)
    (hname : m.metricName = "NumberOfObjects")
    (hapi : api (countQuery now m.dimensions prev) = .ok []) :
    processMetric api pfx prev now m =
      .ok { queries := [countQuery now m.dimensions prev],
            logs := [countMissingLog (extractNameSType m.dimensions).1],
            lines := [] } := by
  simp [processMetric, getBucketSize, getBucketObjectCount, actualGet, hname,
    hapi, GoTime.zero, GoTime.isZero, goZeroTimeSec]

/-- Helper: a "NumberOfObjects" metric whose query errors aborts the run. -/
theorem processMetric_count_err (api : StatsAPI) (pfx : String) (prev : Bool)
    (now : GoTime) (m : Metric) (e : String)
    (hname : m.metricName = "NumberOfObjects")
    (hapi : api (countQuery now m.dimensions prev) = .error e) :
    processMetric api pfx prev now m = .error e := by
  simp [processMetric, getBucketObjectCount, actualGet, hname, hapi]

/-- Helper: a metric of any other kind issues no query, logs nothing and
produces no line. -/
theorem processMetric_other (api : StatsAPI) (pfx : String) (prev : Bool)
    (now : GoTime) (m : Metric)
    (h1 : m.metricName ≠ "BucketSizeBytes")
    (h2 : m.metricName ≠ "NumberOfObjects") :
    processMetric api pfx prev now m =
      .ok { queries := [], logs := [], lines := [] } := by
  simp [processMetric, h1, h2]

/-- Helper: a "BucketSizeBytes" metric answered with a datapoint carrying
the zero timestamp is treated like missing data: diagnostic, no line. -/
theorem processMetric_size_zerots (api : StatsAPI) (pfx : String) (prev : Bool)
    (now : GoTime) (m : Metric) (dp : Datapoint) (rest : List Datapoint)
    (hname : m.metricName = "BucketSizeBytes")
    (hapi : api (sizeQuery now m.dimensions prev) = .ok (dp :: rest))
    (hts : dp.timestamp.isZero = true) :
    processMetric api pfx prev now m =
      .ok { queries := [sizeQuery now m.dimensions prev],
            logs := [sizeMissingLog (extractNameSType m.dimensions).1],
            lines := [] } := by
  simp [processMetric, getBucketSize, getBucketObjectCount, actualGet, hname,
    hapi, hts]

/-- Helper: a "NumberOfObjects" metric answered with a datapoint carrying
the zero timestamp is treated like missing data: diagnostic, no line. -/
theorem processMetric_count_zerots (api : StatsAPI) (pfx : String) (prev : Bool)
    (now : GoTime) (m : Metric) (dp : Datapoint) (rest : List Datapoint)
    (hname : m.metricName = "NumberOfObjects")
    (hapi : api (countQuery now m.dimensions prev) = .ok (dp :: rest))
    (hts : dp.timestamp.isZero = true) :
    processMetric api pfx prev now m =
      .ok { queries := [countQuery now m.dimensions prev],
            logs := [countMissingLog (extractNameSType m.dimensions).1],
            lines := [] } := by
  simp [processMetric, getBucketSize, getBucketObjectCount, actualGet, hname,
    hapi, hts]

/-- Helper: the loop distributes over list concatenation; in particular the
buffered lines of a run are those of the first block followed by those of
the second, in listing order. -/
theorem collectLines_append (api : StatsAPI) (pfx : String) (prev : Bool)
    (now : GoTime) (ms1 ms2 : List Metric) (r : MetricOut)
    (h : collectLines api pfx prev now (ms1 ++ ms2) = .ok r) :
    ∃ r1 r2, collectLines api pfx prev now ms1 = .ok r1 ∧
      collectLines api pfx prev now ms2 = .ok r2 ∧
      r.queries = r1.queries ++ r2.queries ∧ r.logs = r1.logs ++ r2.logs ∧
      r.lines = r1.lines ++ r2.lines := by
  induction ms1 generalizing r with
  | nil =>
    refine ⟨⟨[], [], []⟩, r, rfl, h, ?_, ?_, ?_⟩ <;> simp
  | cons m ms ih =>
    rw [List.cons_append, collectLines] at h
    cases hp : processMetric api pfx prev now m with
    | error e => rw [hp] at h; exact absurd h (by simp)
    | ok p =>
      rw [hp] at h
      cases hc : collectLines api pfx prev now (ms ++ ms2) with
      | error e => rw [hc] at h; exact absurd h (by simp)
      | ok r' =>
        rw [hc] at h
        injection h with h
        obtain ⟨r1, r2, h1, h2, hq, hl, hn⟩ := ih r' hc
        refine ⟨⟨p.queries ++ r1.queries, p.logs ++ r1.logs,
          p.lines ++ r1.lines⟩, r2, ?_, h2, ?_, ?_, ?_⟩
        · rw [collectLines, hp, h1]
        · rw [← h, hq]; simp
        · rw [← h, hl]; simp
        · rw [← h, hn]; simp

/-- Helper: every line a loop iteration appends ends in the single newline
written by its format string. -/
theorem processMetric_lines_shape (api : StatsAPI) (pfx : String) (prev : Bool)
    (now : GoTime) (m : Metric) (r : MetricOut)
    (h : processMetric api pfx prev now m = .ok r) :
    ∀ l ∈ r.lines, ∃ b, l = b ++ "\n" := by
  by_cases h1 : m.metricName = "BucketSizeBytes"
  · cases hapi : api (sizeQuery now m.dimensions prev) with
    | error e =>
      rw [processMetric_size_err api pfx prev now m e h1 hapi] at h
      exact absurd h (by simp)
    | ok dps =>
      cases dps with
      | nil =>
        rw [processMetric_size_missing api pfx prev now m h1 hapi] at h
        injection h with h
        subst h
        simp
      | cons dp rest =>
        cases hts : dp.timestamp.isZero with
        | true =>
          rw [processMetric_size_zerots api pfx prev now m dp rest h1 hapi hts] at h
          injection h with h
          subst h
          simp
        | false =>
          rw [processMetric_size_ok api pfx prev now m dp rest h1 hapi hts] at h
          injection h with h
          subst h
          intro l hl
          simp only [List.mem_singleton] at hl
          subst hl
          exact ⟨_, rfl⟩
  · by_cases h2 : m.metricName = "NumberOfObjects"
    · cases hapi : api (countQuery now m.dimensions prev) with
      | error e =>
        rw [processMetric_count_err api pfx prev now m e h2 hapi] at h
        exact absurd h (by simp)
      | ok dps =>
        cases dps with
        | nil =>
          rw [processMetric_count_missing api pfx prev now m h2 hapi] at h
          injection h with h
          subst h
          simp
        | cons dp rest =>
          cases hts : dp.timestamp.isZero with
          | true =>
            rw [processMetric_count_zerots api pfx prev now m dp rest h2 hapi hts] at h
            injection h with h
            subst h
            simp
          | false =>
            rw [processMetric_count_ok api pfx prev now m dp rest h2 hapi hts] at h
            injection h with h
            subst h
            intro l hl
            simp only [List.mem_singleton] at hl
            subst hl
            exact ⟨_, rfl⟩
    · rw [processMetric_other api pfx prev now m h1 h2] at h
      injection h with h
      subst h
      simp

/-- Helper: one loop iteration appends exactly one line per query whose
answer the code accepts as a datapoint. -/
theorem processMetric_line_count (api : StatsAPI) (pfx : String) (prev : Bool)
    (now : GoTime) (m : Metric) (r : MetricOut)
    (h : processMetric api pfx prev now m = .ok r) :
    r.lines.length = r.queries.countP (datapointCollected api) := by
  by_cases h1 : m.metricName = "BucketSizeBytes"
  · cases hapi : api (sizeQuery now m.dimensions prev) with
    | error e =>
      rw [processMetric_size_err api pfx prev now m e h1 hapi] at h
      exact absurd h (by simp)
    | ok dps =>
      cases dps with
      | nil =>
        rw [processMetric_size_missing api pfx prev now m h1 hapi] at h
        injection h with h
        subst h
        simp [List.countP, List.countP.go, datapointCollected, actualGet, hapi,
          GoTime.isZero, GoTime.zero]
      | cons dp rest =>
        cases hts : dp.timestamp.isZero with
        | true =>
          rw [processMetric_size_zerots api pfx prev now m dp rest h1 hapi hts] at h
          injection h with h
          subst h
          simp [List.countP, List.countP.go, datapointCollected, actualGet, hapi, hts]
        | false =>
          rw [processMetric_size_ok api pfx prev now m dp rest h1 hapi hts] at h
          injection h with h
          subst h
          simp [List.countP, List.countP.go, datapointCollected, actualGet, hapi, hts]
  · by_cases h2 : m.metricName = "NumberOfObjects"
    · cases hapi : api (countQuery now m.dimensions prev) with
      | error e =>
        rw [processMetric_count_err api pfx prev now m e h2 hapi] at h
        exact absurd h (by simp)
      | ok dps =>
        cases dps with
        | nil =>
          rw [processMetric_count_missing api pfx prev now m h2 hapi] at h
          injection h with h
          subst h
          simp [List.countP, List.countP.go, datapointCollected, actualGet, hapi,
            GoTime.isZero, GoTime.zero]
        | cons dp rest =>
          cases hts : dp.timestamp.isZero with
          | true =>
            rw [processMetric_count_zerots api pfx prev now m dp rest h2 hapi hts] at h
            injection h with h
            subst h
            simp [List.countP, List.countP.go, datapointCollected, actualGet, hapi, hts]
          | false =>
            rw [processMetric_count_ok api pfx prev now m dp rest h2 hapi hts] at h
            injection h with h
            subst h
            simp [List.countP, List.countP.go, datapointCollected, actualGet, hapi, hts]
    · rw [processMetric_other api pfx prev now m h1 h2] at h
      injection h with h
      subst h
      simp

/-- Helper: every line in the buffer at the end of the loop ends in the
single newline written by its format string. -/
theorem collectLines_lines_shape (api : StatsAPI) (pfx : String) (prev : Bool)
    (now : GoTime) (ms : List Metric) (r : MetricOut)
    (h : collectLines api pfx prev now ms = .ok r) :
    ∀ l ∈ r.lines, ∃ b, l = b ++ "\n" := by
  induction ms generalizing r with
  | nil =>
    rw [collectLines] at h
    injection h with h
    subst h
    simp
  | cons m ms ih =>
    rw [collectLines] at h
    cases hp : processMetric api pfx prev now m with
    | error e => rw [hp] at h; exact absurd h (by simp)
    | ok p =>
      rw [hp] at h
      cases hc : collectLines api pfx prev now ms with
      | error e => rw [hc] at h; exact absurd h (by simp)
      | ok r' =>
        rw [hc] at h
        injection h with h
        subst h
        intro l hl
        simp only [List.mem_append] at hl
        cases hl with
        | inl hl => exact processMetric_lines_shape api pfx prev now m p hp l hl
        | inr hl => exact ih r' hc l hl

/-- Helper: over the whole run, the buffer holds exactly one line per query
whose answer the code accepts as a datapoint. -/
theorem collectLines_line_count (api : StatsAPI) (pfx : String) (prev : Bool)
    (now : GoTime) (ms : List Metric) (r : MetricOut)
    (h : collectLines api pfx prev now ms = .ok r) :
    r.lines.length = r.queries.countP (datapointCollected api) := by
  induction ms generalizing r with
  | nil =>
    rw [collectLines] at h
    injection h with h
    subst h
    simp
  | cons m ms ih =>
    rw [collectLines] at h
    cases hp : processMetric api pfx prev now m with
    | error e => rw [hp] at h; exact absurd h (by simp)
    | ok p =>
      rw [hp] at h
      cases hc : collectLines api pfx prev now ms with
      | error e => rw [hc] at h; exact absurd h (by simp)
      | ok r' =>
        rw [hc] at h
        injection h with h
        subst h
        simp only [List.length_append, List.countP_append]
        rw [processMetric_line_count api pfx prev now m p hp, ih r' hc]

/-- Helper: the length of the buffer built by successive appends is the sum
of the lengths of the appended lines. -/
theorem foldl_append_length (ls : List String) (init : String) :
    (ls.foldl (fun b l => b ++ l) init).length
      = init.length + (ls.map String.length).sum := by
  induction ls generalizing init with
  | nil => simp
  | cons l ls ih =>
    rw [List.foldl_cons, ih, String.length_append, List.map_cons, List.sum_cons]
    omega

/-- Helper: buffer length is the sum of the line lengths. -/
theorem bufOf_length (ls : List String) :
    (bufOf ls).length = (ls.map String.length).sum := by
  simpa using foldl_append_length ls ""

/-- Helper: a buffer holding at least one newline-terminated line is
non-empty. -/
theorem bufOf_pos (l : String) (rest : List String) (b : String)
    (hl : l = b ++ "\n") : 0 < (bufOf (l :: rest)).length := by
  rw [bufOf_length, List.map_cons, List.sum_cons, hl, String.length_append]
  have h1 : ("\n" : String).length = 1 := rfl
  omega

/-- C2: for every run and every metric descriptor, the statistics query
window is exactly 00:00:00 UTC to 00:01:00 UTC of the target day, with
period 60 and statistic "Average"; and the query depends only on the UTC
date of the invocation time (same UTC day, same query), not on the
wall-clock time-of-day. -/
theorem C2_query_window :
    (∀ (now : GoTime) (dims : List Dimension) (prev : Bool),
      (sizeQuery now dims prev).startTime.unixSec
          = 86400 * (targetTime now prev).utcDay ∧
      (sizeQuery now dims prev).endTime.unixSec
          = 86400 * (targetTime now prev).utcDay + 60 ∧
      (sizeQuery now dims prev).period = 60 ∧
      (sizeQuery now dims prev).statistics = ["Average"] ∧
      (countQuery now dims prev).startTime.unixSec
          = 86400 * (targetTime now prev).utcDay ∧
      (countQuery now dims prev).endTime.unixSec
          = 86400 * (targetTime now prev).utcDay + 60 ∧
      (countQuery now dims prev).period = 60 ∧
      (countQuery now dims prev).statistics = ["Average"]) ∧
    (∀ (now now2 : GoTime) (dims : List Dimension) (prev : Bool),
      now.utcDay = now2.utcDay →
      sizeQuery now dims prev = sizeQuery now2 dims prev ∧
      countQuery now dims prev = countQuery now2 dims prev) := by
  constructor
  · intro now dims prev
    refine ⟨rfl, rfl, rfl, rfl, rfl, rfl, rfl, rfl⟩
  · intro now now2 dims prev h
    simp only [GoTime.utcDay] at h
    have hd : (targetTime now prev).unixSec.fdiv 86400
        = (targetTime now2 prev).unixSec.fdiv 86400 := by
      cases prev with
      | false => exact h
      | true =>
        simp only [targetTime, GoTime.subDay, if_true]
        rw [fdiv_sub_day, fdiv_sub_day, h]
    constructor
    · simp only [sizeQuery, truncToMidnightUTC, hd]
    · simp only [countQuery, truncToMidnightUTC, hd]

/-- C2 witness: 00:00:30 UTC and 00:01:00 UTC on 1970-01-01 yield the same
queries. -/
theorem C2_query_window_witness :
    sizeQuery ⟨30⟩ [] false = sizeQuery ⟨60⟩ [] false ∧
      countQuery ⟨30⟩ [] false = countQuery ⟨60⟩ [] false :=
  C2_query_window.2 ⟨30⟩ ⟨60⟩ [] false (by decide)

/-- C3: with the previous-day flag unset the day whose midnight starts the
query window is the current UTC day; with it set, the current UTC day minus
one. -/
theorem C3_target_day (now : GoTime) (dims : List Dimension) :
    (sizeQuery now dims false).startTime.unixSec = 86400 * now.utcDay ∧
    (countQuery now dims false).startTime.unixSec = 86400 * now.utcDay ∧
    (sizeQuery now dims true).startTime.unixSec = 86400 * (now.utcDay - 1) ∧
    (countQuery now dims true).startTime.unixSec = 86400 * (now.utcDay - 1) := by
  refine ⟨rfl, rfl, ?_, ?_⟩ <;>
    simp [sizeQuery, countQuery, truncToMidnightUTC, targetTime, GoTime.subDay,
      GoTime.utcDay, fdiv_sub_day]

/-- Dimensions of the spec's worked example: bucket "logs", storage type
"StandardStorage". -/
def exampleDims : List Dimension :=
  [{ name := "BucketName", value := "logs" },
   { name := "StorageType", value := "StandardStorage" }]

/-- The worked example's ListMetrics entry for "BucketSizeBytes". -/
def exampleSizeMetric : Metric :=
  { metricName := "BucketSizeBytes", dimensions := exampleDims }

/-- Oracle answering every query with the worked example's datapoint:
timestamp 2015-05-01T00:00:30Z (Unix 1430438430), average 123456.7. -/
def exampleApi : StatsAPI :=
  fun _ => .ok [{ timestamp := { unixSec := 1430438430 },
                  average := mkRat 1234567 10 }]

/-- Oracle answering every query with a single datapoint whose timestamp is
Go's zero time `time.Time{}` and whose average is 5. -/
def zeroTsApi : StatsAPI :=
  fun _ => .ok [{ timestamp := GoTime.zero, average := 5 }]

/-- C1 counterexample: a "BucketSizeBytes" descriptor whose statistics
response contains one datapoint — with timestamp `time.Time{}` — produces
zero output lines, not one: `t.IsZero()` (src/s3report.go:99) conflates
such a datapoint with the missing-data sentinel and logs a diagnostic
instead. -/
theorem C1_counterexample :
    zeroTsApi (sizeQuery ⟨1430438430⟩ exampleDims false)
        = .ok [{ timestamp := GoTime.zero, average := 5 }] ∧
    processMetric zeroTsApi "s3.us-east-1." false ⟨1430438430⟩ exampleSizeMetric
        = .ok { queries := [sizeQuery ⟨1430438430⟩ exampleDims false],
                logs := [sizeMissingLog "logs"], lines := [] } :=
  ⟨rfl, rfl⟩

/-- C1 (amended: the first datapoint's timestamp must not be Go's zero
time `time.Time{}`, which the code reserves as its missing-data sentinel):
a "BucketSizeBytes" descriptor whose response holds at least one such
datapoint produces exactly one line
"{prefix}{bucket}.{storageTypeLower}.size {integerBytes} {unixTimestamp}\n"
with the average truncated toward zero, and a "NumberOfObjects" descriptor
likewise produces exactly one
"{prefix}{bucket}.objcount {integerCount} {unixTimestamp}\n"; on the
worked example the size line is exactly
"s3.us-east-1.logs.standardstorage.size 123456 1430438430\n". -/
theorem C1_line_format :
    (∀ (api : StatsAPI) (pfx : String) (prev : Bool) (now : GoTime)
        (m : Metric) (dp : Datapoint) (rest : List Datapoint),
      m.metricName = "BucketSizeBytes" →
      api (sizeQuery now m.dimensions prev) = .ok (dp :: rest) →
      dp.timestamp.isZero = false →
      processMetric api pfx prev now m =
        .ok { queries := [sizeQuery now m.dimensions prev], logs := [],
              lines := [pfx ++ (extractNameSType m.dimensions).1 ++ "."
                ++ (extractNameSType m.dimensions).2 ++ ".size "
                ++ toString (truncToInt64 dp.average) ++ " "
                ++ toString dp.timestamp.unixSec ++ "\n"] }) ∧
    (∀ (api : StatsAPI) (pfx : String) (prev : Bool) (now : GoTime)
        (m : Metric) (dp : Datapoint) (rest : List Datapoint),
      m.metricName = "NumberOfObjects" →
      api (countQuery now m.dimensions prev) = .ok (dp :: rest) →
      dp.timestamp.isZero = false →
      processMetric api pfx prev now m =
        .ok { queries := [countQuery now m.dimensions prev], logs := [],
              lines := [pfx ++ (extractNameSType m.dimensions).1
                ++ ".objcount " ++ toString (truncToInt64 dp.average) ++ " "
                ++ toString dp.timestamp.unixSec ++ "\n"] }) ∧
    sizeLine "s3.us-east-1." "logs" (goToLower "StandardStorage")
        (truncToInt64 (mkRat 1234567 10)) 1430438430
      = "s3.us-east-1.logs.standardstorage.size 123456 1430438430\n" := by
  refine ⟨?_, ?_, by decide⟩
  · intro api pfx prev now m dp rest hname hapi hts
    exact processMetric_size_ok api pfx prev now m dp rest hname hapi hts
  · intro api pfx prev now m dp rest hname hapi hts
    exact processMetric_count_ok api pfx prev now m dp rest hname hapi hts

/-- C1 witness: the worked example, end to end. -/
theorem C1_line_format_witness :
    processMetric exampleApi "s3.us-east-1." false ⟨1430438430⟩ exampleSizeMetric
      = .ok { queries := [sizeQuery ⟨1430438430⟩ exampleDims false], logs := [],
              lines := ["s3.us-east-1.logs.standardstorage.size 123456 1430438430\n"] } :=
  C1_line_format.1 exampleApi "s3.us-east-1." false ⟨1430438430⟩ exampleSizeMetric
    ⟨⟨1430438430⟩, mkRat 1234567 10⟩ [] rfl rfl rfl

/-- Oracle answering every query with zero datapoints. -/
def emptyApi : StatsAPI := fun _ => .ok []

/-- C4: a descriptor whose statistics response holds zero datapoints yields
no line, the run does not abort (the result is still `ok`, carrying only
the per-metric diagnostic), the absence is represented inside `actualGet`
by the zero-time sentinel `(time.Time{}, 0)`, and that sentinel is distinct
from a value-0 datapoint: a datapoint with average 0 and a non-zero
timestamp still yields a line. -/
theorem C4_zero_datapoints :
    (∀ (api : StatsAPI) (pfx : String) (prev : Bool) (now : GoTime) (m : Metric),
      m.metricName = "BucketSizeBytes" →
      api (sizeQuery now m.dimensions prev) = .ok [] →
      processMetric api pfx prev now m =
        .ok { queries := [sizeQuery now m.dimensions prev],
              logs := [sizeMissingLog (extractNameSType m.dimensions).1],
              lines := [] }) ∧
    (∀ (api : StatsAPI) (pfx : String) (prev : Bool) (now : GoTime) (m : Metric),
      m.metricName = "NumberOfObjects" →
      api (countQuery now m.dimensions prev) = .ok [] →
      processMetric api pfx prev now m =
        .ok { queries := [countQuery now m.dimensions prev],
              logs := [countMissingLog (extractNameSType m.dimensions).1],
              lines := [] }) ∧
    (∀ (api : StatsAPI) (q : GetMetricStatisticsInput),
      api q = .ok [] → actualGet api q = .ok (GoTime.zero, 0)) ∧
    GoTime.zero.isZero = true ∧
    (∀ (api : StatsAPI) (pfx : String) (prev : Bool) (now : GoTime)
        (m : Metric) (dp : Datapoint) (rest : List Datapoint),
      m.metricName = "BucketSizeBytes" →
      api (sizeQuery now m.dimensions prev) = .ok (dp :: rest) →
      dp.average = 0 → dp.timestamp.isZero = false →
      processMetric api pfx prev now m =
        .ok { queries := [sizeQuery now m.dimensions prev], logs := [],
              lines := [sizeLine pfx (extractNameSType m.dimensions).1
                (extractNameSType m.dimensions).2 0 dp.timestamp.unix] }) := by
  refine ⟨?_, ?_, ?_, rfl, ?_⟩
  · intro api pfx prev now m hname hapi
    exact processMetric_size_missing api pfx prev now m hname hapi
  · intro api pfx prev now m hname hapi
    exact processMetric_count_missing api pfx prev now m hname hapi
  · intro api q hq
    simp [actualGet, hq]
  · intro api pfx prev now m dp rest hname hapi havg hts
    have h := processMetric_size_ok api pfx prev now m dp rest hname hapi hts
    rw [h, havg]
    rfl

/-- C4 witness: the worked-example descriptor against an empty response:
no line, a diagnostic log, still an `ok` run. -/
theorem C4_zero_datapoints_witness :
    processMetric emptyApi "s3.us-east-1." false ⟨1430438430⟩ exampleSizeMetric
      = .ok { queries := [sizeQuery ⟨1430438430⟩ exampleDims false],
              logs := [sizeMissingLog "logs"], lines := [] } :=
  C4_zero_datapoints.1 emptyApi "s3.us-east-1." false ⟨1430438430⟩
    exampleSizeMetric rfl rfl

/-- C5: a run that produced zero metric lines takes the `noMetrics` branch
— no TCP dial, diagnostic only, successful exit — and conversely a `sent`
outcome can only arise from a run whose loop produced at least one line,
whose concatenation is the payload. -/
theorem C5_empty_run_no_send :
    (∀ (api : StatsAPI) (pfx : String) (prev : Bool) (now : GoTime)
        (ms : List Metric) (r : MetricOut),
      collectLines api pfx prev now ms = .ok r → r.lines = [] →
      runMain (.ok ms) api pfx prev now = RunOutcome.noMetrics) ∧
    (∀ (listResp : Except String (List Metric)) (api : StatsAPI)
        (pfx : String) (prev : Bool) (now : GoTime) (payload : String),
      runMain listResp api pfx prev now = RunOutcome.sent payload →
      ∃ ms r, listResp = .ok ms ∧ collectLines api pfx prev now ms = .ok r ∧
        r.lines ≠ [] ∧ payload = bufOf r.lines) := by
  constructor
  · intro api pfx prev now ms r hc hlines
    simp [runMain, hc, hlines, bufOf]
  · intro listResp api pfx prev now payload h
    cases listResp with
    | error e => rw [runMain] at h; exact absurd h (by simp)
    | ok ms =>
      rw [runMain] at h
      cases hc : collectLines api pfx prev now ms with
      | error e => rw [hc] at h; exact absurd h (by simp)
      | ok r =>
        rw [hc] at h
        have h2 : (if (bufOf r.lines).length > 0 then
            RunOutcome.sent (bufOf r.lines) else RunOutcome.noMetrics)
              = RunOutcome.sent payload := h
        by_cases hp : (bufOf r.lines).length > 0
        · rw [if_pos hp] at h2
          injection h2 with h2
          refine ⟨ms, r, rfl, hc, ?_, h2.symm⟩
          intro hnil
          rw [hnil] at hp
          exact absurd hp (by simp [bufOf])
        · rw [if_neg hp] at h2
          exact absurd h2 (by simp)

/-- C5 witness: an empty metric listing sends nothing. -/
theorem C5_empty_run_no_send_witness :
    runMain (.ok []) emptyApi "s3.us-east-1." false ⟨1430438430⟩
      = RunOutcome.noMetrics :=
  C5_empty_run_no_send.1 emptyApi "s3.us-east-1." false ⟨1430438430⟩ []
    ⟨[], [], []⟩ rfl rfl

/-- C6: a run whose loop produced at least one line takes the send branch:
exactly one TCP connection is dialed, the whole accumulated buffer — all
lines concatenated in order — is written by the single `buf.WriteTo`, and
the connection is closed (that is what the `sent` outcome denotes). -/
theorem C6_single_full_send (api : StatsAPI) (pfx : String) (prev : Bool)
    (now : GoTime) (ms : List Metric) (r : MetricOut)
    (hc : collectLines api pfx prev now ms = .ok r) (hne : r.lines ≠ []) :
    runMain (.ok ms) api pfx prev now = RunOutcome.sent (bufOf r.lines) := by
  cases hl : r.lines with
  | nil => exact absurd hl hne
  | cons l rest =>
    obtain ⟨b, hb⟩ := collectLines_lines_shape api pfx prev now ms r hc l
      (by rw [hl]; exact List.mem_cons_self l rest)
    have hpos : 0 < (bufOf r.lines).length := by
      rw [hl]; exact bufOf_pos l rest b hb
    simp [runMain, hc, hpos]
    rw [hl]

/-- C6 witness: the worked example produces one line and sends exactly the
one-line buffer. -/
theorem C6_single_full_send_witness :
    runMain (.ok [exampleSizeMetric]) exampleApi "s3.us-east-1." false
        ⟨1430438430⟩
      = RunOutcome.sent
          (bufOf ["s3.us-east-1.logs.standardstorage.size 123456 1430438430\n"]) :=
  C6_single_full_send exampleApi "s3.us-east-1." false ⟨1430438430⟩
    [exampleSizeMetric]
    ⟨[sizeQuery ⟨1430438430⟩ exampleDims false], [],
      ["s3.us-east-1.logs.standardstorage.size 123456 1430438430\n"]⟩
    rfl (by simp)

/-- Message of a sample transport error, for witnesses. -/
def sampleErr : String := "RequestError: send request failed"

/-- C7: any ListMetrics or GetMetricStatistics error aborts the run with
`log.Fatal` — the outcome is `fatal`, which carries no metric payload, so
nothing is ever sent and no call is retried; the error propagates
unchanged from `actualGet` through the loop to main. -/
theorem C7_fatal_on_api_error :
    (∀ (api : StatsAPI) (pfx : String) (prev : Bool) (now : GoTime) (e : String),
      runMain (.error e) api pfx prev now = RunOutcome.fatal e) ∧
    (∀ (api : StatsAPI) (pfx : String) (prev : Bool) (now : GoTime)
        (ms : List Metric) (e : String),
      collectLines api pfx prev now ms = .error e →
      runMain (.ok ms) api pfx prev now = RunOutcome.fatal e) ∧
    (∀ (api : StatsAPI) (q : GetMetricStatisticsInput) (e : String),
      api q = .error e → actualGet api q = .error e) ∧
    (∀ (api : StatsAPI) (pfx : String) (prev : Bool) (now : GoTime)
        (m : Metric) (e : String),
      m.metricName = "BucketSizeBytes" →
      api (sizeQuery now m.dimensions prev) = .error e →
      processMetric api pfx prev now m = .error e) ∧
    (∀ (api : StatsAPI) (pfx : String) (prev : Bool) (now : GoTime)
        (m : Metric) (e : String),
      m.metricName = "NumberOfObjects" →
      api (countQuery now m.dimensions prev) = .error e →
      processMetric api pfx prev now m = .error e) ∧
    (∀ (api : StatsAPI) (pfx : String) (prev : Bool) (now : GoTime)
        (m : Metric) (ms : List Metric) (e : String),
      processMetric api pfx prev now m = .error e →
      collectLines api pfx prev now (m :: ms) = .error e) := by
  refine ⟨?_, ?_, ?_, ?_, ?_, ?_⟩
  · intro api pfx prev now e
    rfl
  · intro api pfx prev now ms e hc
    simp [runMain, hc]
  · intro api q e hq
    simp [actualGet, hq]
  · intro api pfx prev now m e hname hapi
    exact processMetric_size_err api pfx prev now m e hname hapi
  · intro api pfx prev now m e hname hapi
    exact processMetric_count_err api pfx prev now m e hname hapi
  · intro api pfx prev now m ms e hp
    simp [collectLines, hp]

/-- C7 witness: a ListMetrics error is fatal with the same message. -/
theorem C7_fatal_on_api_error_witness :
    runMain (.error sampleErr) emptyApi "s3.us-east-1." false ⟨1430438430⟩
      = RunOutcome.fatal sampleErr :=
  C7_fatal_on_api_error.1 emptyApi "s3.us-east-1." false ⟨1430438430⟩ sampleErr

/-- C8: a descriptor whose metric name is neither "BucketSizeBytes" nor
"NumberOfObjects" issues no statistics query, logs nothing and produces no
line. -/
theorem C8_other_kinds_skipped (api : StatsAPI) (pfx : String) (prev : Bool)
    (now : GoTime) (m : Metric)
    (h1 : m.metricName ≠ "BucketSizeBytes")
    (h2 : m.metricName ≠ "NumberOfObjects") :
    processMetric api pfx prev now m =
      .ok { queries := [], logs := [], lines := [] } :=
  processMetric_other api pfx prev now m h1 h2

/-- Descriptor of a metric kind the program does not report. -/
def otherMetric : Metric :=
  { metricName := "AllRequests",
    dimensions := [{ name := "BucketName", value := "logs" }] }

/-- C8 witness: an "AllRequests" descriptor is skipped entirely. -/
theorem C8_other_kinds_skipped_witness :
    processMetric exampleApi "s3.us-east-1." false ⟨1430438430⟩ otherMetric
      = .ok { queries := [], logs := [], lines := [] } :=
  C8_other_kinds_skipped exampleApi "s3.us-east-1." false ⟨1430438430⟩
    otherMetric (by decide) (by decide)

/-- C9: the buffer holds exactly one line per successfully collected
datapoint (a query whose answer the code accepts), lines appear in listing
order — the loop distributes over concatenation of the listing — and every
line ends in the single newline its format string appends. -/
theorem C9_one_line_per_datapoint :
    (∀ (api : StatsAPI) (pfx : String) (prev : Bool) (now : GoTime)
        (ms1 ms2 : List Metric) (r : MetricOut),
      collectLines api pfx prev now (ms1 ++ ms2) = .ok r →
      ∃ r1 r2, collectLines api pfx prev now ms1 = .ok r1 ∧
        collectLines api pfx prev now ms2 = .ok r2 ∧
        r.lines = r1.lines ++ r2.lines) ∧
    (∀ (api : StatsAPI) (pfx : String) (prev : Bool) (now : GoTime)
        (ms : List Metric) (r : MetricOut),
      collectLines api pfx prev now ms = .ok r →
      r.lines.length = r.queries.countP (datapointCollected api)) ∧
    (∀ (api : StatsAPI) (pfx : String) (prev : Bool) (now : GoTime)
        (ms : List Metric) (r : MetricOut),
      collectLines api pfx prev now ms = .ok r →
      ∀ l ∈ r.lines, ∃ b, l = b ++ "\n") := by
  refine ⟨?_, ?_, ?_⟩
  · intro api pfx prev now ms1 ms2 r h
    obtain ⟨r1, r2, h1, h2, _, _, hn⟩ :=
      collectLines_append api pfx prev now ms1 ms2 r h
    exact ⟨r1, r2, h1, h2, hn⟩
  · intro api pfx prev now ms r h
    exact collectLines_line_count api pfx prev now ms r h
  · intro api pfx prev now ms r h
    exact collectLines_lines_shape api pfx prev now ms r h

/-- C9 witness: a two-descriptor run (one reported kind, one skipped kind)
has one line for its one collected datapoint. -/
theorem C9_one_line_per_datapoint_witness :
    (MetricOut.mk
        [sizeQuery ⟨1430438430⟩ exampleDims false] []
        ["s3.us-east-1.logs.standardstorage.size 123456 1430438430\n"]).lines.length
      = (MetricOut.mk
          [sizeQuery ⟨1430438430⟩ exampleDims false] []
          ["s3.us-east-1.logs.standardstorage.size 123456 1430438430\n"]).queries.countP
            (datapointCollected exampleApi) :=
  C9_one_line_per_datapoint.2.1 exampleApi "s3.us-east-1." false ⟨1430438430⟩
    [exampleSizeMetric, otherMetric] _ rfl

/-- Helper: the dimension scan leaves the storage-type accumulator
untouched when no dimension is named "StorageType". -/
theorem extract_snd_of_no_stype (dims : List Dimension) (p : String × String)
    (h : ∀ d ∈ dims, d.name ≠ "StorageType") :
    (dims.foldl
      (fun p d =>
        if d.name == "BucketName" then (d.value, p.2)
        else if d.name == "StorageType" then (p.1, goToLower d.value)
        else p) p).2 = p.2 := by
  induction dims generalizing p with
  | nil => rfl
  | cons d ds ih =>
    have hd : (d.name == "StorageType") = false := by
      simpa using h d (List.mem_cons_self d ds)
    have hrest : ∀ x ∈ ds, x.name ≠ "StorageType" :=
      fun x hx => h x (List.mem_cons_of_mem d hx)
    rw [List.foldl_cons]
    by_cases hb : d.name = "BucketName"
    · rw [if_pos (by simp [hb])]
      exact ih _ hrest
    · rw [if_neg (by simp [hb]), if_neg (by simp [hd])]
      exact ih _ hrest

/-- Helper: the dimension scan leaves the bucket-name accumulator untouched
when no dimension is named "BucketName". -/
theorem extract_fst_of_no_bucketname (dims : List Dimension) (p : String × String)
    (h : ∀ d ∈ dims, d.name ≠ "BucketName") :
    (dims.foldl
      (fun p d =>
        if d.name == "BucketName" then (d.value, p.2)
        else if d.name == "StorageType" then (p.1, goToLower d.value)
        else p) p).1 = p.1 := by
  induction dims generalizing p with
  | nil => rfl
  | cons d ds ih =>
    have hd : (d.name == "BucketName") = false := by
      simpa using h d (List.mem_cons_self d ds)
    have hrest : ∀ x ∈ ds, x.name ≠ "BucketName" :=
      fun x hx => h x (List.mem_cons_of_mem d hx)
    rw [List.foldl_cons, if_neg (by simp [hd])]
    by_cases hs : d.name = "StorageType"
    · rw [if_pos (by simp [hs])]
      exact ih _ hrest
    · rw [if_neg (by simp [hs])]
      exact ih _ hrest

/-- C10: dimension presence is not validated before formatting — with no
"StorageType" dimension the storage-type segment is empty, with no
"BucketName" dimension the bucket segment is empty, a line is emitted all
the same whenever a datapoint is accepted, and the resulting size line then
shows two consecutive dots. -/
theorem C10_unvalidated_dimensions :
    (∀ dims : List Dimension, (∀ d ∈ dims, d.name ≠ "StorageType") →
      (extractNameSType dims).2 = "") ∧
    (∀ dims : List Dimension, (∀ d ∈ dims, d.name ≠ "BucketName") →
      (extractNameSType dims).1 = "") ∧
    (∀ (api : StatsAPI) (pfx : String) (prev : Bool) (now : GoTime)
        (m : Metric) (dp : Datapoint) (rest : List Datapoint),
      m.metricName = "BucketSizeBytes" →
      api (sizeQuery now m.dimensions prev) = .ok (dp :: rest) →
      dp.timestamp.isZero = false →
      processMetric api pfx prev now m =
        .ok { queries := [sizeQuery now m.dimensions prev], logs := [],
              lines := [sizeLine pfx (extractNameSType m.dimensions).1
                (extractNameSType m.dimensions).2 (truncToInt64 dp.average)
                dp.timestamp.unix] }) ∧
    sizeLine "s3.us-east-1." "logs" "" 123456 1430438430
      = "s3.us-east-1.logs..size 123456 1430438430\n" ∧
    sizeLine "s3.us-east-1." "" "standardstorage" 123456 1430438430
      = "s3.us-east-1..standardstorage.size 123456 1430438430\n" := by
  refine ⟨?_, ?_, ?_, by decide, by decide⟩
  · intro dims h
    exact extract_snd_of_no_stype dims ("", "") h
  · intro dims h
    exact extract_fst_of_no_bucketname dims ("", "") h
  · intro api pfx prev now m dp rest hname hapi hts
    exact processMetric_size_ok api pfx prev now m dp rest hname hapi hts

/-- Dimensions with no "StorageType" entry. -/
def noStypeDims : List Dimension := [{ name := "BucketName", value := "logs" }]

/-- C10 witness: a "BucketSizeBytes" descriptor without a "StorageType"
dimension still yields a line, with two consecutive dots. -/
theorem C10_unvalidated_dimensions_witness :
    (extractNameSType noStypeDims).2 = "" ∧
    processMetric exampleApi "s3.us-east-1." false ⟨1430438430⟩
        { metricName := "BucketSizeBytes", dimensions := noStypeDims }
      = .ok { queries := [sizeQuery ⟨1430438430⟩ noStypeDims false], logs := [],
              lines := ["s3.us-east-1.logs..size 123456 1430438430\n"] } :=
  ⟨C10_unvalidated_dimensions.1 noStypeDims (by decide),
   C10_unvalidated_dimensions.2.2.1 exampleApi "s3.us-east-1." false
     ⟨1430438430⟩ { metricName := "BucketSizeBytes", dimensions := noStypeDims }
     ⟨⟨1430438430⟩, mkRat 1234567 10⟩ [] rfl rfl rfl⟩
